import Mathlib

/-!
Shallow embedding of `src/app/main.py` (brindeflow-site): a Flask
registration app with a single sqlite table, two lookup proxies and an
admin review panel.  Machinery external to the repository (Flask routing,
sqlite, `requests`) is modelled explicitly: the database is a list of rows
plus the AUTOINCREMENT counter, a handler is a pure function from the
request data and the store to a response and a new store, and each lookup
proxy takes the upstream service as a function argument and additionally
returns the list of outbound calls it performed.
-/

namespace Brindeflow

/-- A row of the `registrations` table, fields in schema order
(`init_db` in `main.py`).  `termos_aceitos` is the stored integer (the
insert binds `1 if data.get("termos_aceitos") else 0`), `created_at` is an
abstract timestamp (`CURRENT_TIMESTAMP` at insert), and `notes` is
`Option String` because the column has no default and is NULL until the
admin edits it. -/
structure Registration where
  id : Nat
  nome : String
  email : String
  telefone : String
  cnpj : String
  razao_social : String
  nome_fantasia : String
  cep : String
  endereco : String
  numero : String
  complemento : String
  bairro : String
  cidade : String
  uf : String
  site : String
  instagram : String
  num_funcionarios : String
  empresas_brinde : String
  segmento : String
  como_conheceu : String
  termos_aceitos : Nat
  status : String
  created_at : Nat
  notes : Option String
deriving Repr, DecidableEq

/-- The persistence store: the rows of the `registrations` table in
insertion order, plus the next AUTOINCREMENT id (sqlite starts at 1). -/
structure Store where
  regs : List Registration
  next_id : Nat
deriving Repr, DecidableEq

/-- The freshly created store (`init_db` on an absent database file). -/
def Store.empty : Store := { regs := [], next_id := 1 }

/-- The value bound to the `empresas_brinde` key of the JSON payload:
absent (so `data.get("empresas_brinde", [])` yields `[]`), a JSON list of
strings, or some non-list value (already a string). -/
inductive EmpresasField
  | absent
  | list (xs : List String)
  | str (s : String)
deriving Repr, DecidableEq

/-- The parsed JSON body of `POST /api/registrations`.  Each string field
is `Option String` (`none` models an absent key, so `data.get(k, "")`
yields `""`).  `termos_aceitos` is the truthiness of the bound value. -/
structure Payload where
  nome : Option String := none
  email : Option String := none
  telefone : Option String := none
  cnpj : Option String := none
  razao_social : Option String := none
  nome_fantasia : Option String := none
  cep : Option String := none
  endereco : Option String := none
  numero : Option String := none
  complemento : Option String := none
  bairro : Option String := none
  cidade : Option String := none
  uf : Option String := none
  site : Option String := none
  instagram : Option String := none
  num_funcionarios : Option String := none
  empresas_brinde : EmpresasField := .absent
  segmento : Option String := none
  como_conheceu : Option String := none
  termos_aceitos : Bool := false
deriving Repr, DecidableEq

/-- Models Python `json.dumps` escaping of one character inside a string
literal (the common escapes plus `\u00XX` for other control characters;
the `ensure_ascii` transliteration of characters above U+007F is omitted,
no claim depends on it). -/
def json_dump_char (c : Char) : String :=
  if c = '"' then "\\\""
  else if c = '\\' then "\\\\"
  else if c = '\n' then "\\n"
  else if c = '\r' then "\\r"
  else if c = '\t' then "\\t"
  else if c.toNat < 32 then
    "\\u00" ++ String.mk [Nat.digitChar (c.toNat / 16), Nat.digitChar (c.toNat % 16)]
  else String.mk [c]

/-- Models Python `json.dumps` on a string. -/
def json_dump_str (s : String) : String :=
  "\"" ++ String.join (s.toList.map json_dump_char) ++ "\""

/-- Models Python `json.dumps` on a list of strings (elements joined by
the default `", "` separator); in particular `json_dumps [] = "[]"`. -/
def json_dumps (xs : List String) : String :=
  "[" ++ String.intercalate ", " (xs.map json_dump_str) ++ "]"

/-- Models Python `str.strip()`: drops leading and trailing whitespace
(space, tab, CR, LF; the model does not cover the rarer Python
whitespace code points, which no claim exercises). -/
def pyStrip (s : String) : String :=
  String.mk ((s.toList.dropWhile Char.isWhitespace).reverse.dropWhile
    Char.isWhitespace).reverse

/-- Models Python `str.lower()` (ASCII case mapping; the inputs of
interest are email addresses). -/
def pyLower (s : String) : String :=
  String.mk (s.toList.map Char.toLower)

/-- Models Python `s.replace(c, "")` for a one-character pattern `c`:
removes every occurrence of that character. -/
def removeChar (c : Char) (s : String) : String :=
  String.mk (s.toList.filter (fun a => a != c))

/-- An HTTP response of the app.  `jsonErr m c` is
`jsonify(error = m), c`; `jsonOk c` is `jsonify(ok = True), c`;
`jsonBody b c` relays an upstream JSON body; `redirect t` is
`redirect(url_for(t))`; `page rs` is the rendered dashboard with its row
list; `csv recs ts` is the CSV download, `recs` the writerow records and
`ts` the timestamp embedded in the filename. -/
inductive HResp
  | jsonErr (msg : String) (code : Nat)
  | jsonOk (code : Nat)
  | jsonBody (body : String) (code : Nat)
  | redirect (target : String)
  | page (registrations : List Registration)
  | csv (records : List (List String)) (ts : Nat)
deriving Repr, DecidableEq

/-- Models `data.get(field, "")` for a string field. -/
def getS (o : Option String) : String := o.getD ""

/-- Handler for `POST /api/registrations` (`create_registration`).
`data = none` models `request.get_json()` returning nothing usable
(`if not data`).  `now` is the clock value sqlite binds to `created_at`.
The sqlite UNIQUE constraint on `email` is the membership test before the
append; a hit is the `sqlite3.IntegrityError` branch. -/
def create_registration (st : Store) (now : Nat) (data : Option Payload) :
    HResp × Store :=
  match data with
  | none => (.jsonErr "Dados inválidos" 400, st)
  | some d =>
    if pyStrip (getS d.nome) = "" then (.jsonErr "Campo obrigatório: nome" 400, st)
    else if pyStrip (getS d.email) = "" then (.jsonErr "Campo obrigatório: email" 400, st)
    else if pyStrip (getS d.telefone) = "" then (.jsonErr "Campo obrigatório: telefone" 400, st)
    else if pyStrip (getS d.cnpj) = "" then (.jsonErr "Campo obrigatório: cnpj" 400, st)
    else
      let empresas : String :=
        match d.empresas_brinde with
        | .absent => json_dumps []
        | .list xs => json_dumps xs
        | .str s => s
      let row : Registration := {
        id := st.next_id
        nome := pyStrip (getS d.nome)
        email := pyLower (pyStrip (getS d.email))
        telefone := pyStrip (getS d.telefone)
        cnpj := pyStrip (getS d.cnpj)
        razao_social := pyStrip (getS d.razao_social)
        nome_fantasia := pyStrip (getS d.nome_fantasia)
        cep := pyStrip (getS d.cep)
        endereco := pyStrip (getS d.endereco)
        numero := pyStrip (getS d.numero)
        complemento := pyStrip (getS d.complemento)
        bairro := pyStrip (getS d.bairro)
        cidade := pyStrip (getS d.cidade)
        uf := pyStrip (getS d.uf)
        site := pyStrip (getS d.site)
        instagram := pyStrip (getS d.instagram)
        num_funcionarios := pyStrip (getS d.num_funcionarios)
        empresas_brinde := empresas
        segmento := pyStrip (getS d.segmento)
        como_conheceu := pyStrip (getS d.como_conheceu)
        termos_aceitos := if d.termos_aceitos then 1 else 0
        status := "pendente"
        created_at := now
        notes := none }
      if st.regs.any (fun q => q.email = row.email) then
        (.jsonErr "Este e-mail já está cadastrado." 409, st)
      else
        (.jsonOk 201, { regs := st.regs ++ [row], next_id := st.next_id + 1 })

/-- The outcome of one outbound `requests.get`: a 200 with a JSON body, a
non-200 status, or a `requests.RequestException` (network error or
timeout). -/
inductive Upstream
  | ok (body : String)
  | httpErr (code : Nat)
  | netFail
deriving Repr, DecidableEq

/-- Models Python `str.isdigit` restricted to the ASCII decimal digits
(the inputs the routes receive); empty strings are not digit strings. -/
def pyIsdigit (s : String) : Bool :=
  !s.isEmpty && s.toList.all Char.isDigit

/-- The normalization `cnpj_lookup` applies before validating: Python
`cnpj.replace(".", "").replace("/", "").replace("-", "")`. -/
def cnpjClean (s : String) : String :=
  removeChar '-' (removeChar '/' (removeChar '.' s))

/-- Handler for `GET /api/cnpj/<cnpj>` (`cnpj_lookup`).  `upstream` is
the cnpj.ws service; the second component lists the outbound calls made
(the cleaned identifier passed in the URL), in order. -/
def cnpj_lookup (upstream : String → Upstream) (cnpj0 : String) :
    HResp × List String :=
  let cnpj := cnpjClean cnpj0
  if cnpj.length != 14 || !pyIsdigit cnpj then
    (.jsonErr "CNPJ inválido" 400, [])
  else
    match upstream cnpj with
    | .ok body => (.jsonBody body 200, [cnpj])
    | .httpErr code => (.jsonErr "CNPJ não encontrado" code, [cnpj])
    | .netFail => (.jsonErr "Erro ao consultar CNPJ" 502, [cnpj])

/-- The normalization `cep_lookup` applies: Python
`cep.replace("-", "").replace(".", "")`. -/
def cepClean (s : String) : String :=
  removeChar '.' (removeChar '-' s)

/-- Handler for `GET /api/cep/<cep>` (`cep_lookup`); same shape as
`cnpj_lookup` with viacep as upstream and an 8-digit check. -/
def cep_lookup (upstream : String → Upstream) (cep0 : String) :
    HResp × List String :=
  let cep := cepClean cep0
  if cep.length != 8 || !pyIsdigit cep then
    (.jsonErr "CEP inválido" 400, [])
  else
    match upstream cep with
    | .ok body => (.jsonBody body 200, [cep])
    | .httpErr code => (.jsonErr "CEP não encontrado" code, [cep])
    | .netFail => (.jsonErr "Erro ao consultar CEP" 502, [cep])

/-- The Flask session as the admin routes see it: `session.get("admin")`
truthy or not. -/
structure Session where
  admin : Bool
deriving Repr, DecidableEq

/-- The `admin_required` decorator: an unauthenticated session is
redirected to `admin_login` and the wrapped handler never runs. -/
def admin_required (body : Store → HResp × Store) (sess : Session) (st : Store) :
    HResp × Store :=
  if sess.admin then body st else (.redirect "admin_login", st)

/-- The `SELECT * FROM registrations ORDER BY created_at DESC` query used
by both the dashboard and the export: a stable sort of the rows by
descending creation time. -/
def list_all (st : Store) : List Registration :=
  st.regs.mergeSort (fun a b => decide (b.created_at ≤ a.created_at))

/-- Handler for `GET /admin/dashboard` (`admin_dashboard`). -/
def admin_dashboard (sess : Session) (st : Store) : HResp × Store :=
  admin_required (fun st => (.page (list_all st), st)) sess st

/-- Handler for `POST /admin/registrations/<id>/status` (`update_status`).
`status0 = none` models an absent `status` form field
(`request.form.get("status")` is `None`, which is not in the tuple). -/
def update_status (sess : Session) (st : Store) (reg_id : Nat)
    (status0 : Option String) : HResp × Store :=
  admin_required (fun st =>
    let ok := match status0 with
      | some s => s = "pendente" || s = "aprovado" || s = "rejeitado"
      | none => false
    if !ok then (.jsonErr "Status inválido" 400, st)
    else
      (.redirect "admin_dashboard",
       { st with regs := st.regs.map (fun r =>
           if r.id = reg_id then { r with status := status0.getD "" } else r) }))
    sess st

/-- Handler for `POST /admin/registrations/<id>/notes` (`update_notes`):
overwrites the `notes` column of the addressed row unconditionally. -/
def update_notes (sess : Session) (st : Store) (reg_id : Nat)
    (notes0 : Option String) : HResp × Store :=
  admin_required (fun st =>
    (.redirect "admin_dashboard",
     { st with regs := st.regs.map (fun r =>
         if r.id = reg_id then { r with notes := some (getS notes0) } else r) }))
    sess st

/-- The column names of the `registrations` table in schema order: the
`rows[0].keys()` of the export. -/
def columnNames : List String :=
  ["id", "nome", "email", "telefone", "cnpj", "razao_social",
   "nome_fantasia", "cep", "endereco", "numero", "complemento", "bairro",
   "cidade", "uf", "site", "instagram", "num_funcionarios",
   "empresas_brinde", "segmento", "como_conheceu", "termos_aceitos",
   "status", "created_at", "notes"]

/-- One data record of the export: `list(row)` in column order, rendered
to the strings `csv.writer` emits (NULL renders empty). -/
def rowCells (r : Registration) : List String :=
  [toString r.id, r.nome, r.email, r.telefone, r.cnpj, r.razao_social,
   r.nome_fantasia, r.cep, r.endereco, r.numero, r.complemento, r.bairro,
   r.cidade, r.uf, r.site, r.instagram, r.num_funcionarios,
   r.empresas_brinde, r.segmento, r.como_conheceu,
   toString r.termos_aceitos, r.status, toString r.created_at,
   r.notes.getD ""]

/-- The writerow records of `export_csv`: the header
(`rows[0].keys() if rows else []`) followed by one record per row in
query order.  Each record is one line of the produced CSV. -/
def export_records (st : Store) : List (List String) :=
  let rows := list_all st
  (if rows.isEmpty then [] else columnNames) :: rows.map rowCells

/-- Handler for `GET /admin/export` (`export_csv`); `now` is the
timestamp embedded in the attachment filename. -/
def export_csv (sess : Session) (st : Store) (now : Nat) : HResp × Store :=
  admin_required (fun st => (.csv (export_records st) now, st)) sess st

/-- The first required field of the payload that is missing or blank
after trimming, in the fixed order nome, email, telefone, cnpj checked by
`create_registration`; `none` when validation passes. -/
def firstMissing (d : Payload) : Option String :=
  if pyStrip (getS d.nome) = "" then some "nome"
  else if pyStrip (getS d.email) = "" then some "email"
  else if pyStrip (getS d.telefone) = "" then some "telefone"
  else if pyStrip (getS d.cnpj) = "" then some "cnpj"
  else none

/-- The email value the intake stores: trimmed then lowercased. -/
def normEmail (d : Payload) : String := pyLower (pyStrip (getS d.email))

/-- The row `create_registration` inserts for a payload that passes
validation: the stored image of the payload (id from the AUTOINCREMENT
counter, required and optional strings stripped, email lowercased,
partner list serialized, status `pendente`, notes NULL). -/
def insertedRow (st : Store) (now : Nat) (d : Payload) : Registration :=
  { id := st.next_id
    nome := pyStrip (getS d.nome)
    email := pyLower (pyStrip (getS d.email))
    telefone := pyStrip (getS d.telefone)
    cnpj := pyStrip (getS d.cnpj)
    razao_social := pyStrip (getS d.razao_social)
    nome_fantasia := pyStrip (getS d.nome_fantasia)
    cep := pyStrip (getS d.cep)
    endereco := pyStrip (getS d.endereco)
    numero := pyStrip (getS d.numero)
    complemento := pyStrip (getS d.complemento)
    bairro := pyStrip (getS d.bairro)
    cidade := pyStrip (getS d.cidade)
    uf := pyStrip (getS d.uf)
    site := pyStrip (getS d.site)
    instagram := pyStrip (getS d.instagram)
    num_funcionarios := pyStrip (getS d.num_funcionarios)
    empresas_brinde :=
      match d.empresas_brinde with
      | .absent => json_dumps []
      | .list xs => json_dumps xs
      | .str v => v
    segmento := pyStrip (getS d.segmento)
    como_conheceu := pyStrip (getS d.como_conheceu)
    termos_aceitos := if d.termos_aceitos then 1 else 0
    status := "pendente"
    created_at := now
    notes := none }

/-- A concrete valid payload (email with surrounding blanks and upper
case). -/
def payloadC2a : Payload :=
  { nome := some "n"
    email := some " A@X.com "
    telefone := some "1"
    cnpj := some "2" }

/-- A second concrete valid payload whose email equals the first after
trimming and lowercasing. -/
def payloadC2b : Payload :=
  { nome := some "m"
    email := some "a@x.com"
    telefone := some "3"
    cnpj := some "4" }

/-- A concrete valid payload with every optional field absent. -/
def payloadC9 : Payload :=
  { nome := some "a"
    email := some "b@c"
    telefone := some "1"
    cnpj := some "2" }

/-- A one-row store whose only row has id 1 (so id 99 matches nothing). -/
def storeC10 : Store :=
  { regs := [{ id := 1
               nome := "a"
               email := "b@c"
               telefone := "1"
               cnpj := "2"
               razao_social := ""
               nome_fantasia := ""
               cep := ""
               endereco := ""
               numero := ""
               complemento := ""
               bairro := ""
               cidade := ""
               uf := ""
               site := ""
               instagram := ""
               num_funcionarios := ""
               empresas_brinde := "[]"
               segmento := ""
               como_conheceu := ""
               termos_aceitos := 0
               status := "pendente"
               created_at := 0
               notes := none }]
    next_id := 2 }

lemma firstMissing_none (d : Payload) (h : firstMissing d = none) :
    pyStrip (getS d.nome) ≠ "" ∧ pyStrip (getS d.email) ≠ "" ∧
    pyStrip (getS d.telefone) ≠ "" ∧ pyStrip (getS d.cnpj) ≠ "" := by
  simp only [firstMissing] at h
  split_ifs at h
  all_goals simp_all

/-- C1: a payload with a required field missing or blank after trimming is
rejected with a 400 naming the first such field in the fixed order nome,
email, telefone, cnpj, and the store is untouched. -/
theorem intake_missing_required_field (st : Store) (now : Nat) (d : Payload)
    (f : String) (h : firstMissing d = some f) :
    create_registration st now (some d) =
      (.jsonErr ("Campo obrigatório: " ++ f) 400, st) := by
  simp only [firstMissing] at h
  simp only [create_registration]
  split_ifs at h ⊢ <;> simp_all <;> subst h <;> decide

theorem intake_missing_required_field_witness :
    firstMissing { email := some "a@b" } = some "nome" ∧
    create_registration Store.empty 0 (some { email := some "a@b" }) =
      (.jsonErr ("Campo obrigatório: " ++ "nome") 400, Store.empty) :=
  ⟨by decide, intake_missing_required_field Store.empty 0 _ "nome" (by decide)⟩

/-- C3: with an unauthenticated session, every review operation (dashboard,
set-status, set-notes, export) redirects to the login entry point and
leaves the store untouched; the wrapped handler never runs. -/
theorem admin_gate_blocks_unauthenticated (sess : Session) (st : Store)
    (reg_id : Nat) (status0 notes0 : Option String) (now : Nat)
    (h : sess.admin = false) :
    admin_dashboard sess st = (.redirect "admin_login", st) ∧
    update_status sess st reg_id status0 = (.redirect "admin_login", st) ∧
    update_notes sess st reg_id notes0 = (.redirect "admin_login", st) ∧
    export_csv sess st now = (.redirect "admin_login", st) := by
  simp [admin_dashboard, update_status, update_notes, export_csv,
    admin_required, h]

theorem admin_gate_blocks_unauthenticated_witness :
    (Session.mk false).admin = false ∧
    (admin_dashboard ⟨false⟩ Store.empty = (.redirect "admin_login", Store.empty) ∧
     update_status ⟨false⟩ Store.empty 1 (some "aprovado") = (.redirect "admin_login", Store.empty) ∧
     update_notes ⟨false⟩ Store.empty 1 (some "x") = (.redirect "admin_login", Store.empty) ∧
     export_csv ⟨false⟩ Store.empty 7 = (.redirect "admin_login", Store.empty)) :=
  ⟨rfl, admin_gate_blocks_unauthenticated ⟨false⟩ Store.empty 1 (some "aprovado") (some "x") 7 rfl⟩

/-- C4: the tax-ID lookup strips periods, slashes and hyphens first; if the
cleaned identifier is not exactly 14 digits the request is rejected with a
400 and no outbound call is made; the example input normalizes to
14 digits and is forwarded as the cleaned string. -/
theorem cnpj_rejected_locally (upstream : String → Upstream) (s : String)
    (h : ¬ ((cnpjClean s).length = 14 ∧ pyIsdigit (cnpjClean s) = true)) :
    cnpj_lookup upstream s = (.jsonErr "CNPJ inválido" 400, []) ∧
    cnpjClean "11.222.333/0001-81" = "11222333000181" ∧
    (cnpj_lookup upstream "11.222.333/0001-81").2 = ["11222333000181"] := by
  refine ⟨?_, by decide, ?_⟩
  · simp only [cnpj_lookup]
    rcases Decidable.not_and_iff_or_not.mp h with h' | h'
    · simp [bne_iff_ne, h']
    · simp only [Bool.not_eq_true] at h'
      simp [h']
  · have hc : cnpjClean "11.222.333/0001-81" = "11222333000181" := by decide
    simp only [cnpj_lookup, hc]
    rw [if_neg (by decide)]
    rcases upstream "11222333000181" with b | c | _ <;> rfl

theorem cnpj_rejected_locally_witness :
    ¬ ((cnpjClean "123").length = 14 ∧ pyIsdigit (cnpjClean "123") = true) ∧
    (cnpj_lookup (fun _ => .netFail) "123" = (.jsonErr "CNPJ inválido" 400, []) ∧
     cnpjClean "11.222.333/0001-81" = "11222333000181" ∧
     (cnpj_lookup (fun _ => .netFail) "11.222.333/0001-81").2 = ["11222333000181"]) :=
  ⟨by decide, cnpj_rejected_locally (fun _ => .netFail) "123" (by decide)⟩

/-- C8: the postal-code lookup strips hyphens and periods first; if the
cleaned code is not exactly 8 digits the request is rejected with a 400 and
no outbound call is made; the example input normalizes to 8 digits. -/
theorem cep_rejected_locally (upstream : String → Upstream) (s : String)
    (h : ¬ ((cepClean s).length = 8 ∧ pyIsdigit (cepClean s) = true)) :
    cep_lookup upstream s = (.jsonErr "CEP inválido" 400, []) ∧
    cepClean "01310-100" = "01310100" ∧
    (cep_lookup upstream "01310-100").2 = ["01310100"] := by
  refine ⟨?_, by decide, ?_⟩
  · simp only [cep_lookup]
    rcases Decidable.not_and_iff_or_not.mp h with h' | h'
    · simp [bne_iff_ne, h']
    · simp only [Bool.not_eq_true] at h'
      simp [h']
  · have hc : cepClean "01310-100" = "01310100" := by decide
    simp only [cep_lookup, hc]
    rw [if_neg (by decide)]
    rcases upstream "01310100" with b | c | _ <;> rfl

theorem cep_rejected_locally_witness :
    ¬ ((cepClean "0131-100").length = 8 ∧ pyIsdigit (cepClean "0131-100") = true) ∧
    (cep_lookup (fun _ => .netFail) "0131-100" = (.jsonErr "CEP inválido" 400, []) ∧
     cepClean "01310-100" = "01310100" ∧
     (cep_lookup (fun _ => .netFail) "01310-100").2 = ["01310100"]) :=
  ⟨by decide, cep_rejected_locally (fun _ => .netFail) "0131-100" (by decide)⟩

/-- C5: a lookup that passes local validation makes exactly one outbound
call with the cleaned input and maps the upstream outcome: a 200 body is
relayed, a non-200 status is relayed as an error carrying that same
status, and a network or timeout failure yields the fixed 502 gateway
error; there is no retry. -/
theorem lookup_upstream_relay (upC upP : String → Upstream) (s t : String)
    (hs : (cnpjClean s).length = 14 ∧ pyIsdigit (cnpjClean s) = true)
    (ht : (cepClean t).length = 8 ∧ pyIsdigit (cepClean t) = true) :
    (∀ body, upC (cnpjClean s) = .ok body →
       cnpj_lookup upC s = (.jsonBody body 200, [cnpjClean s])) ∧
    (∀ code, upC (cnpjClean s) = .httpErr code →
       cnpj_lookup upC s = (.jsonErr "CNPJ não encontrado" code, [cnpjClean s])) ∧
    (upC (cnpjClean s) = .netFail →
       cnpj_lookup upC s = (.jsonErr "Erro ao consultar CNPJ" 502, [cnpjClean s])) ∧
    (∀ body, upP (cepClean t) = .ok body →
       cep_lookup upP t = (.jsonBody body 200, [cepClean t])) ∧
    (∀ code, upP (cepClean t) = .httpErr code →
       cep_lookup upP t = (.jsonErr "CEP não encontrado" code, [cepClean t])) ∧
    (upP (cepClean t) = .netFail →
       cep_lookup upP t = (.jsonErr "Erro ao consultar CEP" 502, [cepClean t])) := by
  have hifC : ((cnpjClean s).length != 14 || !pyIsdigit (cnpjClean s)) = false := by
    simp [hs.1, hs.2]
  have hifP : ((cepClean t).length != 8 || !pyIsdigit (cepClean t)) = false := by
    simp [ht.1, ht.2]
  refine ⟨fun body h => ?_, fun code h => ?_, fun h => ?_,
    fun body h => ?_, fun code h => ?_, fun h => ?_⟩ <;>
    simp [cnpj_lookup, cep_lookup, hifC, hifP, h]

theorem lookup_upstream_relay_witness :
    ((cnpjClean "11.222.333/0001-81").length = 14 ∧
      pyIsdigit (cnpjClean "11.222.333/0001-81") = true) ∧
    ((cepClean "01310-100").length = 8 ∧ pyIsdigit (cepClean "01310-100") = true) ∧
    (cnpj_lookup (fun _ => .httpErr 404) "11.222.333/0001-81" =
      (.jsonErr "CNPJ não encontrado" 404, ["11222333000181"])) ∧
    (cep_lookup (fun _ => .netFail) "01310-100" =
      (.jsonErr "Erro ao consultar CEP" 502, ["01310100"])) := by
  refine ⟨by decide, by decide, ?_, ?_⟩
  · have h := (lookup_upstream_relay (fun _ => .httpErr 404) (fun _ => .netFail)
      "11.222.333/0001-81" "01310-100" (by decide) (by decide)).2.1 404 rfl
    rw [h]
    decide
  · have h := (lookup_upstream_relay (fun _ => .httpErr 404) (fun _ => .netFail)
      "11.222.333/0001-81" "01310-100" (by decide) (by decide)).2.2.2.2.2 rfl
    rw [h]
    decide

lemma create_registration_success (st : Store) (now : Nat) (d : Payload)
    (h : firstMissing d = none)
    (hfresh : ∀ r ∈ st.regs, r.email ≠ normEmail d) :
    create_registration st now (some d) =
      (.jsonOk 201, { regs := st.regs ++ [insertedRow st now d],
                      next_id := st.next_id + 1 }) := by
  obtain ⟨h1, h2, h3, h4⟩ := firstMissing_none d h
  have hany : (st.regs.any fun q => q.email = pyLower (pyStrip (getS d.email))) = false := by
    rw [List.any_eq_false]
    intro q hq
    simp only [decide_eq_true_eq]
    exact hfresh q hq
  simp only [create_registration, if_neg h1, if_neg h2, if_neg h3, if_neg h4]
  simp [hany, insertedRow]

lemma create_registration_conflict (st : Store) (now : Nat) (d : Payload)
    (h : firstMissing d = none)
    (hdup : (st.regs.any fun q => q.email = normEmail d) = true) :
    create_registration st now (some d) =
      (.jsonErr "Este e-mail já está cadastrado." 409, st) := by
  obtain ⟨h1, h2, h3, h4⟩ := firstMissing_none d h
  simp only [normEmail] at hdup
  simp only [create_registration, if_neg h1, if_neg h2, if_neg h3, if_neg h4]
  simp [hdup]

/-- C2: two valid submissions whose emails agree after trimming and
lowercasing, against a store not yet holding that email: the first gets a
201, the second gets the distinguishable 409 duplicate-email error and
changes nothing, and exactly one row with that email remains. -/
theorem duplicate_email_conflict (st : Store) (now1 now2 : Nat)
    (d1 d2 : Payload)
    (h1 : firstMissing d1 = none) (h2 : firstMissing d2 = none)
    (heq : normEmail d2 = normEmail d1)
    (hfresh : ∀ r ∈ st.regs, r.email ≠ normEmail d1) :
    (create_registration st now1 (some d1)).1 = .jsonOk 201 ∧
    create_registration (create_registration st now1 (some d1)).2 now2 (some d2) =
      (.jsonErr "Este e-mail já está cadastrado." 409,
       (create_registration st now1 (some d1)).2) ∧
    ((create_registration st now1 (some d1)).2.regs.filter
       fun r => r.email = normEmail d1).length = 1 := by
  have hs := create_registration_success st now1 d1 h1 hfresh
  have hrow : (insertedRow st now1 d1).email = normEmail d1 := rfl
  refine ⟨by rw [hs], ?_, ?_⟩
  · apply create_registration_conflict _ _ _ h2
    rw [hs]
    simp only [List.any_append, List.any_cons, List.any_nil, hrow, heq]
    simp
  · rw [hs]
    simp only [List.filter_append]
    have hnil : (st.regs.filter fun r => r.email = normEmail d1) = [] := by
      rw [List.filter_eq_nil_iff]
      intro q hq
      simp only [decide_eq_true_eq]
      exact hfresh q hq
    simp [hnil, hrow]

theorem duplicate_email_conflict_witness :
    (firstMissing payloadC2a = none ∧ firstMissing payloadC2b = none ∧
     normEmail payloadC2b = normEmail payloadC2a) ∧
    ((create_registration Store.empty 0 (some payloadC2a)).1 = .jsonOk 201 ∧
     create_registration (create_registration Store.empty 0
         (some payloadC2a)).2 1 (some payloadC2b) =
       (.jsonErr "Este e-mail já está cadastrado." 409,
        (create_registration Store.empty 0 (some payloadC2a)).2) ∧
     ((create_registration Store.empty 0 (some payloadC2a)).2.regs.filter
        fun r => r.email = normEmail payloadC2a).length = 1) :=
  ⟨⟨by decide, by decide, by decide⟩,
   duplicate_email_conflict Store.empty 0 1 payloadC2a payloadC2b
     (by decide) (by decide) (by decide) (by intro r hr; simp [Store.empty] at hr)⟩

/-- C6: with an authenticated session, a set-status request with a value
outside the three-value status set is rejected with a 400 and the store
(hence every row status) is unchanged; a value inside the set updates
exactly the addressed row, mapping every other row to itself. -/
theorem status_update_validated (sess : Session) (st : Store) (reg_id : Nat)
    (s : String) (hauth : sess.admin = true) :
    (s ∉ (["pendente", "aprovado", "rejeitado"] : List String) →
      update_status sess st reg_id (some s) =
        (.jsonErr "Status inválido" 400, st)) ∧
    (s ∈ (["pendente", "aprovado", "rejeitado"] : List String) →
      update_status sess st reg_id (some s) =
        (.redirect "admin_dashboard",
         { st with regs := st.regs.map fun r =>
             if r.id = reg_id then { r with status := s } else r })) := by
  constructor <;> intro hm
  · have h1 : s ≠ "pendente" := fun e => hm (by simp [e])
    have h2 : s ≠ "aprovado" := fun e => hm (by simp [e])
    have h3 : s ≠ "rejeitado" := fun e => hm (by simp [e])
    simp [update_status, admin_required, hauth, h1, h2, h3]
  · simp only [List.mem_cons, List.mem_singleton, List.not_mem_nil,
      or_false] at hm
    rcases hm with e | e | e <;> subst e <;>
      simp [update_status, admin_required, hauth]

theorem status_update_validated_witness :
    (Session.mk true).admin = true ∧
    (("x" ∉ (["pendente", "aprovado", "rejeitado"] : List String) →
       update_status ⟨true⟩ Store.empty 1 (some "x") =
         (.jsonErr "Status inválido" 400, Store.empty)) ∧
     ("x" ∈ (["pendente", "aprovado", "rejeitado"] : List String) →
       update_status ⟨true⟩ Store.empty 1 (some "x") =
         (.redirect "admin_dashboard",
          { Store.empty with regs := Store.empty.regs.map fun r =>
              if r.id = 1 then { r with status := "x" } else r }))) :=
  ⟨rfl, status_update_validated ⟨true⟩ Store.empty 1 "x" rfl⟩

/-- C7: for an authenticated session the export returns the CSV records
of the store and changes nothing; with zero registrations the records are
a single empty header row; with N registrations there are N + 1 records,
the data records being the List/dashboard row sequence rendered in order,
which is sorted by descending creation time and is a permutation of the
stored rows. -/
theorem export_csv_shape (sess : Session) (st : Store) (now : Nat)
    (hauth : sess.admin = true) :
    export_csv sess st now = (.csv (export_records st) now, st) ∧
    admin_dashboard sess st = (.page (list_all st), st) ∧
    (st.regs = [] → export_records st = [[]]) ∧
    (export_records st).length = st.regs.length + 1 ∧
    (export_records st).tail = (list_all st).map rowCells ∧
    List.Pairwise (fun a b => b.created_at ≤ a.created_at) (list_all st) ∧
    (list_all st).Perm st.regs := by
  refine ⟨?_, ?_, ?_, ?_, ?_, ?_, ?_⟩
  · simp [export_csv, admin_required, hauth]
  · simp [admin_dashboard, admin_required, hauth]
  · intro h
    simp [export_records, list_all, h]
  · simp [export_records, list_all, List.length_mergeSort]
  · rfl
  · have hs := @List.sorted_mergeSort Registration
      (fun a b => decide (b.created_at ≤ a.created_at))
      (fun a b c hab hbc => by
        simp only [decide_eq_true_eq] at *
        omega)
      (fun a b => by
        rcases Nat.le_total b.created_at a.created_at with h | h <;> simp [h])
      st.regs
    exact hs.imp fun h => by simpa using h
  · exact List.mergeSort_perm st.regs _

theorem export_csv_shape_witness :
    (Session.mk true).admin = true ∧
    (export_csv ⟨true⟩ Store.empty 9 =
       (.csv (export_records Store.empty) 9, Store.empty) ∧
     admin_dashboard ⟨true⟩ Store.empty =
       (.page (list_all Store.empty), Store.empty) ∧
     (Store.empty.regs = [] → export_records Store.empty = [[]]) ∧
     (export_records Store.empty).length = Store.empty.regs.length + 1 ∧
     (export_records Store.empty).tail = (list_all Store.empty).map rowCells ∧
     List.Pairwise (fun a b => b.created_at ≤ a.created_at)
       (list_all Store.empty) ∧
     (list_all Store.empty).Perm Store.empty.regs) :=
  ⟨rfl, export_csv_shape ⟨true⟩ Store.empty 9 rfl⟩

/-- C9 counterexample: the accepted payload `payloadC9` has its
partner-company list key absent, yet the stored `empresas_brinde` field of
the created row is the serialized empty list `"[]"`, not the empty string:
not every absent optional field is stored as the empty string. -/
theorem optional_defaults_counterexample :
    ((create_registration Store.empty 0 (some payloadC9)).2.regs.map
       fun r => r.empresas_brinde) = ["[]"] ∧ ("[]" : String) ≠ "" := by
  decide

/-- C9 amended: an accepted payload appends exactly `insertedRow` to the
store; in that row every absent optional string field is stored as the
empty string, the absent partner-company list is stored as the
serialization `"[]"` of the empty list, and the email is stored trimmed
and lowercased. -/
theorem optional_field_defaults (st : Store) (now : Nat) (d : Payload)
    (hok : firstMissing d = none)
    (hfresh : ∀ r ∈ st.regs, r.email ≠ normEmail d) :
    (create_registration st now (some d)).2.regs =
      st.regs ++ [insertedRow st now d] ∧
    (insertedRow st now d).email = pyLower (pyStrip (getS d.email)) ∧
    (d.razao_social = none → (insertedRow st now d).razao_social = "") ∧
    (d.nome_fantasia = none → (insertedRow st now d).nome_fantasia = "") ∧
    (d.cep = none → (insertedRow st now d).cep = "") ∧
    (d.endereco = none → (insertedRow st now d).endereco = "") ∧
    (d.numero = none → (insertedRow st now d).numero = "") ∧
    (d.complemento = none → (insertedRow st now d).complemento = "") ∧
    (d.bairro = none → (insertedRow st now d).bairro = "") ∧
    (d.cidade = none → (insertedRow st now d).cidade = "") ∧
    (d.uf = none → (insertedRow st now d).uf = "") ∧
    (d.site = none → (insertedRow st now d).site = "") ∧
    (d.instagram = none → (insertedRow st now d).instagram = "") ∧
    (d.num_funcionarios = none →
      (insertedRow st now d).num_funcionarios = "") ∧
    (d.segmento = none → (insertedRow st now d).segmento = "") ∧
    (d.como_conheceu = none → (insertedRow st now d).como_conheceu = "") ∧
    (d.empresas_brinde = .absent →
      (insertedRow st now d).empresas_brinde = "[]") := by
  have hmk := create_registration_success st now d hok hfresh
  refine ⟨by rw [hmk], rfl, ?_, ?_, ?_, ?_, ?_, ?_, ?_, ?_, ?_, ?_, ?_,
    ?_, ?_, ?_, ?_⟩ <;>
    (intro h; simp only [insertedRow]; rw [h]; decide)

theorem optional_field_defaults_witness :
    firstMissing payloadC9 = none ∧
    ((create_registration Store.empty 0 (some payloadC9)).2.regs =
       Store.empty.regs ++ [insertedRow Store.empty 0 payloadC9] ∧
     (payloadC9.empresas_brinde = .absent →
       (insertedRow Store.empty 0 payloadC9).empresas_brinde = "[]") ∧
     (payloadC9.razao_social = none →
       (insertedRow Store.empty 0 payloadC9).razao_social = "")) :=
  ⟨by decide, by
    obtain ⟨c1, -, c3, -, -, -, -, -, -, -, -, -, -, -, -, -, c17⟩ :=
      optional_field_defaults Store.empty 0 payloadC9 (by decide)
        (by intro r hr; simp [Store.empty] at hr)
    exact ⟨c1, c17, c3⟩⟩

lemma map_noop_of_missing (reg_id : Nat) (g : Registration → Registration)
    (l : List Registration) (h : ∀ r ∈ l, r.id ≠ reg_id) :
    (l.map fun r => if r.id = reg_id then g r else r) = l := by
  induction l with
  | nil => rfl
  | cons a t ih =>
    rw [List.map_cons, if_neg (h a (List.mem_cons_self a t)),
      ih fun r hr => h r (List.mem_cons_of_mem a hr)]

/-- C10 counterexample: with an authenticated session, the set-status
request addressing id 99 of `storeC10` (matching no row) with an invalid
status value returns the 400 validation error, which is not a redirect to
the dashboard: an unknown-id set-status request does not always complete
with a redirect. -/
theorem unknown_id_counterexample :
    (storeC10.regs.all fun r => r.id != 99) = true ∧
    update_status ⟨true⟩ storeC10 99 (some "x") =
      (.jsonErr "Status inválido" 400, storeC10) ∧
    HResp.jsonErr "Status inválido" 400 ≠ .redirect "admin_dashboard" := by
  decide

/-- C10 amended: with an authenticated session, a set-notes request whose
identifier matches no row, and a set-status request with such an
identifier and a valid status value, modify no row and complete with a
redirect to the dashboard, reporting no error. -/
theorem unknown_id_noop (sess : Session) (st : Store) (reg_id : Nat)
    (notes0 : Option String) (s : String)
    (hauth : sess.admin = true)
    (hmiss : ∀ r ∈ st.regs, r.id ≠ reg_id)
    (hvalid : s ∈ (["pendente", "aprovado", "rejeitado"] : List String)) :
    update_notes sess st reg_id notes0 = (.redirect "admin_dashboard", st) ∧
    update_status sess st reg_id (some s) =
      (.redirect "admin_dashboard", st) := by
  constructor
  · simp [update_notes, admin_required, hauth,
      map_noop_of_missing reg_id _ st.regs hmiss]
  · simp only [List.mem_cons, List.mem_singleton, List.not_mem_nil,
      or_false] at hvalid
    rcases hvalid with e | e | e <;> subst e <;>
      simp [update_status, admin_required, hauth,
        map_noop_of_missing reg_id _ st.regs hmiss]

theorem unknown_id_noop_witness :
    ((Session.mk true).admin = true ∧
     (∀ r ∈ storeC10.regs, r.id ≠ 99) ∧
     "aprovado" ∈ (["pendente", "aprovado", "rejeitado"] : List String)) ∧
    (update_notes ⟨true⟩ storeC10 99 (some "note") =
       (.redirect "admin_dashboard", storeC10) ∧
     update_status ⟨true⟩ storeC10 99 (some "aprovado") =
       (.redirect "admin_dashboard", storeC10)) :=
  ⟨⟨rfl, by intro r hr; simp only [storeC10] at hr; simp at hr; subst hr; decide,
    by decide⟩,
   unknown_id_noop ⟨true⟩ storeC10 99 (some "note") "aprovado" rfl
     (by intro r hr; simp only [storeC10] at hr; simp at hr; subst hr; decide)
     (by decide)⟩

end Brindeflow
